import Mathlib

/-!
Verification of the emotion-resolution pipeline of `predict.py`
(`_parse_vector`, `CPUQwenEmotion.convert` / the tail of
`CPUQwenEmotion.inference`, `SafeQwenEmotion`, `_wrap_qwen_with_fallback`,
and the directive that `Predictor.predict` hands to the synthesis engine).

Python scores are modelled as exact rationals (`ℚ`): every constant used by
the code (0.0, 1.0, 1.2, user-supplied decimals) is an exact decimal, and the
code performs no arithmetic on them beyond `min` / `max` / comparison, so no
IEEE-754 rounding behaviour is observable in any of the claims.  Python
exceptions are modelled with `Except` / `Option`.
-/

/-! ## Python string primitives -/

/-- The whitespace characters stripped by Python `str.strip()` / `float(str)`
and matched by the regex class `\s` (ASCII part; the claims only involve
ASCII whitespace). -/
def pyIsSpace (c : Char) : Bool :=
  c = ' ' || c = '\t' || c = '\n' || c = '\r' || c = '\x0b' || c = '\x0c'

/-- Strip leading and trailing Python whitespace from a character list. -/
def pyStripList (l : List Char) : List Char :=
  ((l.dropWhile pyIsSpace).reverse.dropWhile pyIsSpace).reverse

/-- Python `str.strip()`. -/
def pyStrip (s : String) : String :=
  String.mk (pyStripList s.data)

/-- Python `str.lower()` (ASCII case folding; the melancholic trigger words
are ASCII or Chinese, and Chinese characters are unchanged by `lower`). -/
def pyToLower (s : String) : String :=
  String.mk (s.data.map Char.toLower)

/-! ## Python float values and `float(str)` -/

/-- A Python float as far as the pipeline observes it: a finite exact decimal,
or one of the special values that `float(str)` / `json.loads` can produce. -/
inductive PyFloat where
  | finite (q : ℚ)
  | posInf
  | negInf
  | nan
  deriving DecidableEq

/-- Numeric value of an ASCII digit. -/
def digitVal (c : Char) : Nat := c.toNat - 48

/-- Scan the remainder of a digit group in which single underscores may sit
between digits (CPython numeric-literal rule); accumulates the value and the
number of digits seen. -/
def duGo : Nat → Nat → List Char → Option (Nat × Nat)
  | accV, accC, [] => some (accV, accC)
  | accV, accC, '_' :: c :: t =>
    if c.isDigit then duGo (accV * 10 + digitVal c) (accC + 1) t else none
  | accV, accC, c :: t =>
    if c.isDigit then duGo (accV * 10 + digitVal c) (accC + 1) t else none

/-- Parse a possibly-empty digit group (underscores allowed only between
digits): returns the value and the digit count, or `none` if the characters
are not a legal digit group. -/
def duParse : List Char → Option (Nat × Nat)
  | [] => some (0, 0)
  | c :: t => if c.isDigit then duGo (digitVal c) 1 t else none

/-- Split a character list at the first `e` / `E`, keeping the tail. -/
def splitAtFirstE : List Char → List Char × Option (List Char)
  | [] => ([], none)
  | c :: t =>
    if c = 'e' || c = 'E' then ([], some t)
    else
      let p := splitAtFirstE t
      (c :: p.1, p.2)

/-- Split a character list at the first `.`, keeping the tail. -/
def splitAtFirstDot : List Char → List Char × Option (List Char)
  | [] => ([], none)
  | c :: t =>
    if c = '.' then ([], some t)
    else
      let p := splitAtFirstDot t
      (c :: p.1, p.2)

/-- Consume an optional leading sign; returns (isNegative, rest). -/
def pySign : List Char → Bool × List Char
  | '+' :: t => (false, t)
  | '-' :: t => (true, t)
  | l => (false, l)

/-- Assemble the rational value of a parsed decimal literal:
sign, integer part, fractional digits (value and count), decimal exponent. -/
def pyCombine (neg : Bool) (iv fv : Nat) (fc : Nat) (e : Int) : ℚ :=
  let m : ℚ := (iv : ℚ) + (fv : ℚ) / (10 : ℚ) ^ fc
  let v := m * (10 : ℚ) ^ e
  if neg then -v else v

/-- Parse the exponent part (after `e` / `E`) of a Python float literal. -/
def pyExponentVal (l : List Char) : Option Int :=
  let sg := pySign l
  match duParse sg.2 with
  | some (v, c) => if c = 0 then none else some (if sg.1 then -(v : Int) else (v : Int))
  | none => none

/-- CPython `float(str)`: optional surrounding whitespace, optional sign, then
`inf` / `infinity` / `nan` (case-insensitive) or a decimal literal
`digits [. digits] [e sign digits]` with at least one mantissa digit
(underscores permitted between digits). -/
def pyFloatParse (s : String) : Option PyFloat :=
  let t0 := pyStripList s.data
  let sg := pySign t0
  let neg := sg.1
  let t := sg.2
  let lower := t.map Char.toLower
  if lower = "inf".data || lower = "infinity".data then
    some (if neg then PyFloat.negInf else PyFloat.posInf)
  else if lower = "nan".data then some PyFloat.nan
  else
    let me := splitAtFirstE t
    let id2 := splitAtFirstDot me.1
    let ip := id2.1
    let fp := (id2.2).getD []
    if fp.contains '.' then none
    else
      match duParse ip, duParse fp with
      | some (iv, ic), some (fv, fc) =>
        if ic + fc = 0 then none
        else
          match me.2 with
          | none => some (PyFloat.finite (pyCombine neg iv fv fc 0))
          | some ex =>
            match pyExponentVal ex with
            | none => none
            | some e => some (PyFloat.finite (pyCombine neg iv fv fc e))
      | _, _ => none

/-! ## Python `json.loads` (used by `_parse_vector` on inputs starting with a bracket) -/

/-- A decoded JSON value as `json.loads` returns it. -/
inductive JsonValue where
  | null
  | bool (b : Bool)
  | num (v : PyFloat)
  | str (s : String)
  | arr (items : List JsonValue)
  | obj (fields : List (String × JsonValue))

/-- JSON insignificant whitespace. -/
def jsonIsSpace (c : Char) : Bool :=
  c = ' ' || c = '\t' || c = '\n' || c = '\r'

/-- Skip JSON whitespace. -/
def jsonSkipWs (l : List Char) : List Char := l.dropWhile jsonIsSpace

/-- Consume an exact literal; returns the remainder on success. -/
def stripExact : List Char → List Char → Option (List Char)
  | [], l => some l
  | _ :: _, [] => none
  | p :: ps, c :: cs => if c = p then stripExact ps cs else none

/-- Value of a hexadecimal digit. -/
def hexVal (c : Char) : Option Nat :=
  if c.isDigit then some (c.toNat - 48)
  else if 'a' ≤ c ∧ c ≤ 'f' then some (c.toNat - 87)
  else if 'A' ≤ c ∧ c ≤ 'F' then some (c.toNat - 55)
  else none

/-- The opening curly bracket character (written by code point to keep the
source free of brace characters). -/
def jsonLBrace : Char := Char.ofNat 123

/-- The closing curly bracket character. -/
def jsonRBrace : Char := Char.ofNat 125

/-- Single-character JSON string escapes. -/
def jsonEscChar (e : Char) : Option Char :=
  if e = '"' then some '"'
  else if e = '\\' then some '\\'
  else if e = '/' then some '/'
  else if e = 'b' then some '\x08'
  else if e = 'f' then some '\x0c'
  else if e = 'n' then some '\n'
  else if e = 'r' then some '\r'
  else if e = 't' then some '\t'
  else none

/-- Parse the body of a JSON string (opening quote already consumed):
characters up to the closing quote, with escapes; unescaped control
characters are rejected as `json.loads` does in strict mode.  `\u` escapes
take the code unit as a character (surrogate pairing is not modelled; no
claim involves it). -/
def jsonParseStringChars : Nat → List Char → Option (List Char × List Char)
  | 0, _ => none
  | _ + 1, [] => none
  | fuel + 1, c :: t =>
    if c = '"' then some ([], t)
    else if c = '\\' then
      match t with
      | 'u' :: h1 :: h2 :: h3 :: h4 :: t2 =>
        match hexVal h1, hexVal h2, hexVal h3, hexVal h4 with
        | some a, some b, some c3, some d =>
          (jsonParseStringChars fuel t2).map
            (fun p => (Char.ofNat (((a * 16 + b) * 16 + c3) * 16 + d) :: p.1, p.2))
        | _, _, _, _ => none
      | e :: t2 =>
        match jsonEscChar e with
        | some ch => (jsonParseStringChars fuel t2).map (fun p => (ch :: p.1, p.2))
        | none => none
      | [] => none
    else if c.toNat < 32 then none
    else (jsonParseStringChars fuel t).map (fun p => (c :: p.1, p.2))

/-- Take and drop a leading run of digits. -/
def jsonDigits (l : List Char) : List Char × List Char :=
  (l.takeWhile Char.isDigit, l.dropWhile Char.isDigit)

/-- Numeric value of a digit run. -/
def natOfDigits (l : List Char) : Nat :=
  l.foldl (fun a c => a * 10 + digitVal c) 0

/-- Parse the exponent tail of a JSON number (after `e` / `E`). -/
def jsonNumExpTail (neg : Bool) (iv fv : Nat) (fc : Nat) (l : List Char) :
    Option (PyFloat × List Char) :=
  let sg : Bool × List Char :=
    match l with
    | '+' :: t => (false, t)
    | '-' :: t => (true, t)
    | _ => (false, l)
  let dpp := jsonDigits sg.2
  if dpp.1.isEmpty then none
  else
    let ev : Int := if sg.1 then -(natOfDigits dpp.1 : Int) else (natOfDigits dpp.1 : Int)
    some (PyFloat.finite (pyCombine neg iv fv fc ev), dpp.2)

/-- Parse the optional exponent of a JSON number. -/
def jsonNumExp (neg : Bool) (iv fv : Nat) (fc : Nat) (l : List Char) :
    Option (PyFloat × List Char) :=
  match l with
  | 'e' :: t => jsonNumExpTail neg iv fv fc t
  | 'E' :: t => jsonNumExpTail neg iv fv fc t
  | _ => some (PyFloat.finite (pyCombine neg iv fv fc 0), l)

/-- Parse a JSON number: `-? int frac? exp?`, integer part `0` or without a
leading zero, as in RFC 8259 (which `json.loads` follows for numbers). -/
def jsonParseNumber (l : List Char) : Option (PyFloat × List Char) :=
  let sg : Bool × List Char := match l with | '-' :: t => (true, t) | _ => (false, l)
  let ipp := jsonDigits sg.2
  let ip := ipp.1
  if ip.isEmpty then none
  else if 1 < ip.length ∧ ip.head? = some '0' then none
  else
    match ipp.2 with
    | '.' :: r2 =>
      let fpp := jsonDigits r2
      if fpp.1.isEmpty then none
      else jsonNumExp sg.1 (natOfDigits ip) (natOfDigits fpp.1) fpp.1.length fpp.2
    | r1 => jsonNumExp sg.1 (natOfDigits ip) 0 0 r1

mutual

/-- Parse one JSON value (fuel-bounded recursion; `jsonLoads` supplies ample
fuel, mirroring the finite recursion depth of the Python decoder).  Includes
the `Infinity` / `-Infinity` / `NaN` extensions accepted by `json.loads`. -/
def jsonParseValue : Nat → List Char → Option (JsonValue × List Char)
  | 0, _ => none
  | fuel + 1, l =>
    match jsonSkipWs l with
    | [] => none
    | c :: rest =>
      if c = '[' then jsonParseArrayBody fuel rest
      else if c = jsonLBrace then jsonParseObjectBody fuel rest
      else if c = '"' then
        match jsonParseStringChars (rest.length + 1) rest with
        | some (cs, r) => some (JsonValue.str (String.mk cs), r)
        | none => none
      else if c = 't' then
        match stripExact "rue".data rest with
        | some r => some (JsonValue.bool true, r)
        | none => none
      else if c = 'f' then
        match stripExact "alse".data rest with
        | some r => some (JsonValue.bool false, r)
        | none => none
      else if c = 'n' then
        match stripExact "ull".data rest with
        | some r => some (JsonValue.null, r)
        | none => none
      else if c = 'N' then
        match stripExact "aN".data rest with
        | some r => some (JsonValue.num PyFloat.nan, r)
        | none => none
      else if c = 'I' then
        match stripExact "nfinity".data rest with
        | some r => some (JsonValue.num PyFloat.posInf, r)
        | none => none
      else if c = '-' then
        match stripExact "Infinity".data rest with
        | some r => some (JsonValue.num PyFloat.negInf, r)
        | none =>
          match jsonParseNumber (c :: rest) with
          | some (v, r) => some (JsonValue.num v, r)
          | none => none
      else
        match jsonParseNumber (c :: rest) with
        | some (v, r) => some (JsonValue.num v, r)
        | none => none

/-- Parse an array body (opening square bracket already consumed). -/
def jsonParseArrayBody : Nat → List Char → Option (JsonValue × List Char)
  | 0, _ => none
  | fuel + 1, l =>
    match jsonSkipWs l with
    | ']' :: r => some (JsonValue.arr [], r)
    | l2 =>
      match jsonParseValue fuel l2 with
      | none => none
      | some (v, r) => jsonParseArrayTail fuel [v] r

/-- Parse the remaining elements of a non-empty array. -/
def jsonParseArrayTail : Nat → List JsonValue → List Char → Option (JsonValue × List Char)
  | 0, _, _ => none
  | fuel + 1, acc, l =>
    match jsonSkipWs l with
    | ',' :: r =>
      match jsonParseValue fuel r with
      | none => none
      | some (v, r2) => jsonParseArrayTail fuel (acc ++ [v]) r2
    | ']' :: r => some (JsonValue.arr acc, r)
    | _ => none

/-- Parse an object body (opening curly bracket already consumed). -/
def jsonParseObjectBody : Nat → List Char → Option (JsonValue × List Char)
  | 0, _ => none
  | fuel + 1, l =>
    match jsonSkipWs l with
    | [] => none
    | c :: r =>
      if c = jsonRBrace then some (JsonValue.obj [], r)
      else if c = '"' then
        match jsonParseStringChars (r.length + 1) r with
        | some (ks, r2) =>
          match jsonSkipWs r2 with
          | ':' :: r3 =>
            match jsonParseValue fuel r3 with
            | none => none
            | some (v, r4) => jsonParseObjectTail fuel [(String.mk ks, v)] r4
          | _ => none
        | none => none
      else none

/-- Parse the remaining members of a non-empty object. -/
def jsonParseObjectTail : Nat → List (String × JsonValue) → List Char →
    Option (JsonValue × List Char)
  | 0, _, _ => none
  | fuel + 1, acc, l =>
    match jsonSkipWs l with
    | ',' :: r =>
      match jsonSkipWs r with
      | '"' :: r1 =>
        match jsonParseStringChars (r1.length + 1) r1 with
        | some (ks, r2) =>
          match jsonSkipWs r2 with
          | ':' :: r3 =>
            match jsonParseValue fuel r3 with
            | none => none
            | some (v, r4) => jsonParseObjectTail fuel (acc ++ [(String.mk ks, v)]) r4
          | _ => none
        | none => none
      | _ => none
    | c :: r =>
      if c = jsonRBrace then some (JsonValue.obj acc, r) else none
    | [] => none

end

/-- Python `json.loads`: parse one value and require only whitespace after
it. -/
def jsonLoads (s : String) : Option JsonValue :=
  match jsonParseValue (4 * s.data.length + 16) s.data with
  | some (v, rest) => if jsonSkipWs rest = [] then some v else none
  | none => none

/-- Decidable equality for `Except`, so that concrete runs of the fallible
functions can be checked by `decide`. -/
instance {ε α : Type} [DecidableEq ε] [DecidableEq α] : DecidableEq (Except ε α) :=
  fun a b =>
    match a, b with
    | .ok x, .ok y =>
      match decEq x y with
      | isTrue h => isTrue (by rw [h])
      | isFalse h => isFalse (fun hh => h (Except.ok.inj hh))
    | .error x, .error y =>
      match decEq x y with
      | isTrue h => isTrue (by rw [h])
      | isFalse h => isFalse (fun hh => h (Except.error.inj hh))
    | .ok _, .error _ => isFalse (fun hh => Except.noConfusion hh)
    | .error _, .ok _ => isFalse (fun hh => Except.noConfusion hh)

/-! ## `_parse_vector` (predict.py lines 157-172) -/

/-- The error kinds observable at the boundary of `_parse_vector`:
`invalidVectorFormat` is the `ValueError("Could not parse emotion_vector; use
JSON or comma separated numbers")` raised at line 169 (the spec's
`InvalidVectorFormat`); `valueError` / `typeError` are the bare `ValueError` /
`TypeError` that `float(val)` at line 172 can raise outside the guarded
region. -/
inductive VecErr where
  | invalidVectorFormat
  | valueError
  | typeError
  deriving DecidableEq

/-- Python `float(val)` applied to a decoded JSON value (predict.py line 172):
numbers pass through, booleans coerce to 0/1, strings re-parse via
`float(str)` (raising `ValueError` when malformed), and `null` / arrays /
objects raise `TypeError`. -/
def pyFloatOfJson : JsonValue → Except VecErr PyFloat
  | JsonValue.num v => .ok v
  | JsonValue.bool b => .ok (PyFloat.finite (if b then 1 else 0))
  | JsonValue.str s =>
    match pyFloatParse s with
    | some v => .ok v
    | none => .error VecErr.valueError
  | JsonValue.null => .error VecErr.typeError
  | JsonValue.arr _ => .error VecErr.typeError
  | JsonValue.obj _ => .error VecErr.typeError

/-- The list comprehension `[float(val) for val in values]` over decoded JSON
values; the first failing element's exception propagates. -/
def mapFloatJson : List JsonValue → Except VecErr (List PyFloat)
  | [] => .ok []
  | v :: rest =>
    match pyFloatOfJson v with
    | .error e => .error e
    | .ok x =>
      match mapFloatJson rest with
      | .error e => .error e
      | .ok xs => .ok (x :: xs)

/-- The comprehension `[float(tok) for tok in raw.split(",") if tok.strip()]`
(predict.py line 167): blank tokens are skipped; a `float` failure on any kept
token is caught by the surrounding `except` and surfaces as
`invalidVectorFormat`. -/
def parseTokens : List String → Except VecErr (List PyFloat)
  | [] => .ok []
  | tok :: rest =>
    if pyStrip tok = "" then parseTokens rest
    else
      match pyFloatParse tok with
      | none => .error VecErr.invalidVectorFormat
      | some v =>
        match parseTokens rest with
        | .error e => .error e
        | .ok vs => .ok (v :: vs)

/-- Python `raw.startswith("[")`. -/
def startsWithLBracket (s : String) : Bool :=
  match s.data with
  | '[' :: _ => true
  | _ => false

/-- `_parse_vector` (predict.py lines 157-172).  `none` for an absent or
blank input; an input starting with `[` goes through `json.loads` (a decode
failure is caught and re-raised as `invalidVectorFormat`; a string starting
with `[` can only decode to an array); otherwise the comma-split branch.
An empty resulting list is `none`.  The final `[float(val) for val in
values]` conversion at line 172 sits outside the `try` block: in the JSON
branch its `TypeError` / `ValueError` escape unwrapped, and in the comma
branch the values are already floats so it is the identity. -/
def _parse_vector (raw : Option String) : Except VecErr (Option (List PyFloat)) :=
  match raw with
  | none => .ok none
  | some s =>
    if s = "" then .ok none
    else if pyStrip s = "" then .ok none
    else if startsWithLBracket (pyStrip s) then
      match jsonLoads (pyStrip s) with
      | some (JsonValue.arr values) =>
        if values.isEmpty then .ok none
        else
          match mapFloatJson values with
          | .error e => .error e
          | .ok l => .ok (some l)
      | _ => .error VecErr.invalidVectorFormat
    else
      match parseTokens ((pyStrip s).splitOn ",") with
      | .error e => .error e
      | .ok values => if values.isEmpty then .ok none else .ok (some values)

/-! ## The directive `Predictor.predict` hands to `self.tts.infer`
(predict.py lines 234-258) -/

/-- The emotion-relevant arguments of the `self.tts.infer` call.  The
pass-through sampling and segmentation parameters (`top_p`, `top_k`,
`temperature`, `interval_silence`, ...) are forwarded uninterpreted by this
core (spec section 6) and are omitted. -/
structure Directive where
  spk_audio_prompt : String
  text : String
  emo_audio_prompt : Option String
  emo_alpha : ℚ
  emo_vector : Option (List PyFloat)
  use_emo_text : Bool
  emo_text : Option String
  use_random : Bool
  deriving DecidableEq

/-- `Predictor.predict` up to the construction of the `self.tts.infer`
argument list (predict.py lines 234-248): parse the explicit vector (a
`_parse_vector` exception propagates to the request boundary), then hand the
directive to the synthesis engine with
`use_emo_text = emotion_text is not None and emotion_text.strip() != ""`. -/
def predict (text : String) (speaker_audio : String) (emotion_audio : Option String)
    (emotion_scale : ℚ) (emotion_vector : Option String) (emotion_text : Option String)
    (randomize_emotion : Bool) : Except VecErr Directive :=
  match _parse_vector emotion_vector with
  | .error e => .error e
  | .ok emotion_values =>
    .ok
      { spk_audio_prompt := speaker_audio
        text := text
        emo_audio_prompt := emotion_audio
        emo_alpha := emotion_scale
        emo_vector := emotion_values
        use_emo_text :=
          match emotion_text with
          | none => false
          | some t => pyStrip t != ""
        emo_text := emotion_text
        use_random := randomize_emotion }

/-! ## Python dicts as insertion-ordered association lists -/

/-- Python `d[k]` lookup (keys in the modelled dicts are unique, so first
match is the match). -/
def dictLookup {α : Type} : List (String × α) → String → Option α
  | [], _ => none
  | p :: rest, k => if p.1 = k then some p.2 else dictLookup rest k

/-- Python `d.get(k, dflt)`. -/
def dictGet {α : Type} (d : List (String × α)) (k : String) (dflt : α) : α :=
  match dictLookup d k with
  | some v => v
  | none => dflt

/-- Python `d[k] = v`: replace the value in place when the key is present
(keeping its position, as a Python dict does), otherwise append. -/
def dictSet {α : Type} : List (String × α) → String → α → List (String × α)
  | [], k, v => [(k, v)]
  | p :: rest, k, v => if p.1 = k then (k, v) :: rest else p :: dictSet rest k v

/-- A RawClassification / EmotionVector mapping: label token to score. -/
abbrev PyDict := List (String × ℚ)

/-! ## `CPUQwenEmotion` (predict.py lines 21-109): the pure part -/

/-- `self.cn_key_to_en` (lines 31-40). -/
def cn_key_to_en : List (String × String) :=
  [("高兴", "happy"), ("愤怒", "angry"), ("悲伤", "sad"), ("恐惧", "afraid"),
   ("反感", "disgusted"), ("低落", "melancholic"), ("惊讶", "surprised"), ("自然", "calm")]

/-- `self.desired_vector_order` (lines 41-50). -/
def desired_vector_order : List String :=
  ["高兴", "愤怒", "悲伤", "恐惧", "反感", "低落", "惊讶", "自然"]

/-- `self.melancholic_words` (lines 51-58; a Python set, but only membership
tests are performed, so the order below is irrelevant). -/
def melancholic_words : List String :=
  ["低落", "melancholy", "melancholic", "depression", "depressed", "gloomy"]

/-- `self.max_score` (line 59). -/
def max_score : ℚ := 6 / 5

/-- `self.min_score` (line 60). -/
def min_score : ℚ := 0

/-- `clamp_score` (lines 62-63). -/
def clamp_score (value : ℚ) : ℚ := max min_score (min max_score value)

/-- `self.cn_key_to_en[cn_key]` — only ever applied to members of
`desired_vector_order`, all of which are keys of `cn_key_to_en`, so the
`.getD ""` default is unreachable. -/
def cnToEn (cn : String) : String := (dictLookup cn_key_to_en cn).getD ""

/-- The `emotion_dict` comprehension of `convert` (lines 66-69): the
English-keyed dict in canonical order, each value
`clamp_score(content.get(cn_key, 0.0))`. -/
def emotion_dict_of (content : PyDict) : PyDict :=
  desired_vector_order.map
    (fun cn_key => (cnToEn cn_key, clamp_score (dictGet content cn_key 0)))

/-- `convert` (lines 65-72): build `emotion_dict`; if every value of the
built dict (the calm entry included) is at most 0, set `calm` to 1.0. -/
def convert (content : PyDict) : PyDict :=
  if (emotion_dict_of content).all (fun p => decide (p.2 ≤ 0)) then
    dictSet (emotion_dict_of content) "calm" 1
  else emotion_dict_of content

/-- Does `needle` occur at the head of `hay`? -/
def startsWithList : List Char → List Char → Bool
  | [], _ => true
  | _ :: _, [] => false
  | n :: ns, h :: hs => n == h && startsWithList ns hs

/-- Python substring containment `needle in hay` on code-point lists. -/
def containsSub (needle : List Char) : List Char → Bool
  | [] => needle.isEmpty
  | h :: rest => startsWithList needle (h :: rest) || containsSub needle rest

/-- Python `w in s` for strings. -/
def strContains (hay w : String) : Bool := containsSub w.data hay.data

/-- `any(word in lower for word in self.melancholic_words)` over
`lower = text_input.lower()` (lines 106-107). -/
def contains_melancholic_word (text_input : String) : Bool :=
  melancholic_words.any (fun word => strContains (pyToLower text_input) word)

/-- The tuple assignment
`parsed["悲伤"], parsed["低落"] = parsed.get("低落", 0.0), parsed.get("悲伤", 0.0)`
(line 108): both right-hand sides are evaluated first, then the two keys are
assigned in order, so after it both keys are present. -/
def melancholy_swap (parsed : PyDict) : PyDict :=
  dictSet (dictSet parsed "悲伤" (dictGet parsed "低落" 0)) "低落" (dictGet parsed "悲伤" 0)

/-- Lines 106-108 of `inference`: swap the two scores exactly when the
lowered input text contains a melancholic trigger word. -/
def apply_melancholy_rule (text_input : String) (parsed : PyDict) : PyDict :=
  if contains_melancholic_word text_input then melancholy_swap parsed else parsed

/-- The pure tail of `inference` (lines 106-109), taking the decoded
`parsed` mapping as input: the melancholic-word swap followed by `convert`.
The preceding model invocation and decoding are an external collaborator. -/
def inference_postprocess (text_input : String) (parsed : PyDict) : PyDict :=
  convert (apply_melancholy_rule text_input parsed)

/-! ## The tolerant pattern-scan fallback (predict.py lines 101-105):
`re.finditer` with the pattern `([^\s":.,]+?)"?\s*:\s*([\d.]+)` -/

/-- Membership in the first capture group's class `[^\s":.,]`. -/
def isLabelChar (c : Char) : Bool :=
  !(pyIsSpace c || c = '"' || c = ':' || c = '.' || c = ',')

/-- Membership in the second capture group's class `[\d.]`. -/
def isNumTokenChar (c : Char) : Bool := c.isDigit || c = '.'

/-- Try to match the pattern at the head of `l`, returning both capture
groups and the remainder after the match.  The lazy group `[^\s":.,]+?` is
forced to extend to the whole run of class characters, because the characters
that may follow it (`"`, whitespace, `:`) are all excluded from its class;
the optional quote need never backtrack for the same reason; and nothing
follows the final greedy `[\d.]+`. -/
def tryMatchAt (l : List Char) : Option (String × String × List Char) :=
  let run1 := l.takeWhile isLabelChar
  if run1.isEmpty then none
  else
    let r1 := l.drop run1.length
    let r2 := match r1 with | '"' :: t => t | _ => r1
    match r2.dropWhile pyIsSpace with
    | ':' :: r4 =>
      let r5 := r4.dropWhile pyIsSpace
      let run2 := r5.takeWhile isNumTokenChar
      if run2.isEmpty then none
      else some (String.mk run1, String.mk run2, r5.drop run2.length)
    | _ => none

/-- `re.finditer`: scan left to right; a successful match is emitted and
scanning resumes after it, otherwise advance one character.  Fuel-bounded;
every step continues on a strict suffix, so fuel `l.length` is exact. -/
def scanMatchesGo : Nat → List Char → List (String × String)
  | 0, _ => []
  | _ + 1, [] => []
  | fuel + 1, c :: rest =>
    match tryMatchAt (c :: rest) with
    | some (g1, g2, after) => (g1, g2) :: scanMatchesGo fuel after
    | none => scanMatchesGo fuel rest

/-- All matches of the fallback pattern in order. -/
def scanMatches (l : List Char) : List (String × String) := scanMatchesGo l.length l

/-- `float(match.group(2))` on a `[\d.]+` capture: such a string can never
denote an infinity or NaN, so a non-finite parse is impossible and a parse
failure is Python's `ValueError`. -/
def float_of_match (s : String) : Except VecErr ℚ :=
  match pyFloatParse s with
  | some (PyFloat.finite q) => .ok q
  | _ => .error VecErr.valueError

/-- The dict comprehension of lines 102-105: later duplicate keys overwrite
earlier ones; the first failing `float` raises. -/
def fallbackFold : List (String × String) → PyDict → Except VecErr PyDict
  | [], acc => .ok acc
  | (k, v) :: rest, acc =>
    match float_of_match v with
    | .error e => .error e
    | .ok q => fallbackFold rest (dictSet acc k q)

/-- The whole `except json.decoder.JSONDecodeError` arm (lines 101-105):
scan the decoded content and build the best-effort mapping. -/
def fallback_parse (content : String) : Except VecErr PyDict :=
  fallbackFold (scanMatches content.data) []

/-! ## `SafeQwenEmotion` and `_wrap_qwen_with_fallback` (predict.py lines 114-154) -/

/-- A constructed classifier instance: its `inference` method may raise. -/
structure QwenInstance where
  inference : String → Except String PyDict

/-- A classifier class as `_wrap_qwen_with_fallback` sees it: the
`_is_safe_wrapper` marker attribute (`getattr` default `False`) and a
constructor that may raise. -/
structure QwenClass where
  is_safe_wrapper : Bool
  construct : String → Except String QwenInstance

/-- The state a `SafeQwenEmotion.__init__` leaves behind (lines 128-139):
`_inner` on success, `_inner_exc` on failure.  The `try`/`except Exception`
catches any construction failure, so initialisation itself never raises —
modelled by this being a total function. -/
structure SafeQwenEmotion where
  inner : Option QwenInstance
  inner_exc : Option String

/-- `SafeQwenEmotion.__init__` over the captured `original_cls`. -/
def SafeQwenEmotion.init (original_cls : QwenClass) (model_dir : String) : SafeQwenEmotion :=
  match original_cls.construct model_dir with
  | .ok inst => { inner := some inst, inner_exc := none }
  | .error exc => { inner := none, inner_exc := some exc }

/-- `SafeQwenEmotion.inference` (lines 141-152): neutral `{"calm": 1.0}` when
degraded; otherwise delegate, converting any exception of the inner call to
the neutral mapping.  Total: the method never raises. -/
def SafeQwenEmotion.inference (self : SafeQwenEmotion) (text_input : String) : PyDict :=
  match self.inner with
  | none => [("calm", 1)]
  | some inner =>
    match inner.inference text_input with
    | .ok d => d
    | .error _ => [("calm", 1)]

/-- The `SafeQwenEmotion` class built over `original_cls`: marker set, and a
constructor that always succeeds, yielding an instance whose `inference`
never raises. -/
def safe_class_of (original_cls : QwenClass) : QwenClass :=
  { is_safe_wrapper := true
    construct := fun model_dir =>
      let w := SafeQwenEmotion.init original_cls model_dir
      .ok { inference := fun text_input => .ok (w.inference text_input) } }

/-- `_wrap_qwen_with_fallback` (lines 114-154) acting on the module's
`QwenEmotion` binding: `None` is left alone, an already-marked class is left
alone, anything else is replaced by its safe wrapper class. -/
def _wrap_qwen_with_fallback (qwen : Option QwenClass) : Option QwenClass :=
  match qwen with
  | none => none
  | some original_cls =>
    if original_cls.is_safe_wrapper then some original_cls
    else some (safe_class_of original_cls)

/-- A classifier class whose constructor always raises (e.g. the model
weights cannot be loaded); used to exercise the degraded path concretely. -/
def failingClass : QwenClass :=
  { is_safe_wrapper := false
    construct := fun _ => .error "load failure" }

/-- A classifier instance that raises on the input "boom" and succeeds
otherwise; used to exercise per-call failure isolation concretely. -/
def flakyInstance : QwenInstance :=
  { inference := fun t => if t = "boom" then .error "inference failure" else .ok [("高兴", 1)] }

/-- A healthy (constructible) class over `flakyInstance`. -/
def healthyClass : QwenClass :=
  { is_safe_wrapper := false
    construct := fun _ => .ok flakyInstance }

/-! ## Helper lemmas about the dict model -/

/-- Looking up the key just set yields the value set. -/
theorem dictLookup_dictSet_self {α : Type} (d : List (String × α)) (k : String) (v : α) :
    dictLookup (dictSet d k v) k = some v := by
  induction d with
  | nil => simp [dictSet, dictLookup]
  | cons p rest ih =>
    by_cases h : p.1 = k
    · simp [dictSet, h, dictLookup]
    · simp [dictSet, h, dictLookup, ih]

/-- Setting one key leaves lookups of other keys unchanged. -/
theorem dictLookup_dictSet_ne {α : Type} (d : List (String × α)) {k k2 : String}
    (h : k2 ≠ k) (v : α) :
    dictLookup (dictSet d k v) k2 = dictLookup d k2 := by
  induction d with
  | nil => simp [dictSet, dictLookup, Ne.symm h]
  | cons p rest ih =>
    by_cases hp : p.1 = k
    · simp [dictSet, hp, dictLookup, Ne.symm h]
    · simp [dictSet, hp, dictLookup, ih]

/-- `get` of the key just set. -/
theorem dictGet_dictSet_self {α : Type} (d : List (String × α)) (k : String) (v dflt : α) :
    dictGet (dictSet d k v) k dflt = v := by
  simp [dictGet, dictLookup_dictSet_self]

/-- `get` of a different key after a set. -/
theorem dictGet_dictSet_ne {α : Type} (d : List (String × α)) {k k2 : String}
    (h : k2 ≠ k) (v dflt : α) :
    dictGet (dictSet d k v) k2 dflt = dictGet d k2 dflt := by
  simp [dictGet, dictLookup_dictSet_ne _ h]

/-- `convert` depends on its input dict only through `get`-with-default-0. -/
theorem convert_congr {d1 d2 : PyDict} (h : ∀ k, dictGet d1 k 0 = dictGet d2 k 0) :
    convert d1 = convert d2 := by
  unfold convert emotion_dict_of
  simp only [h]

/-- The clamped score is nonnegative. -/
theorem clamp_score_nonneg (v : ℚ) : 0 ≤ clamp_score v := by
  unfold clamp_score min_score
  exact le_max_left 0 _

/-- The clamped score is at most 1.2. -/
theorem clamp_score_le (v : ℚ) : clamp_score v ≤ 6 / 5 := by
  unfold clamp_score max_score min_score
  exact max_le (by norm_num) (min_le_left _ _)

/-- `all` over a mapped list is `all` of the composite. -/
theorem all_map_comp {α β : Type} (l : List α) (f : α → β) (p : β → Bool) :
    (l.map f).all p = l.all (fun a => p (f a)) := by
  induction l with
  | nil => rfl
  | cons a t ih => simp [ih]

/-- The `all` condition tested inside `convert` coincides with the same
condition read off the raw scores. -/
theorem convert_all_condition (content : PyDict) :
    (emotion_dict_of content).all (fun p => decide (p.2 ≤ 0)) =
    desired_vector_order.all (fun cn => decide (clamp_score (dictGet content cn 0) ≤ 0)) := by
  unfold emotion_dict_of
  rw [all_map_comp]

/-- If any kept (non-blank) token of the comma branch fails to parse as a
float, the whole comprehension raises, and the surrounding handler turns the
failure into `invalidVectorFormat`. -/
theorem parseTokens_error (toks : List String) (tok : String) (hmem : tok ∈ toks)
    (hne : pyStrip tok ≠ "") (hbad : pyFloatParse tok = none) :
    parseTokens toks = .error VecErr.invalidVectorFormat := by
  induction toks with
  | nil => cases hmem
  | cons t rest ih =>
    rcases List.mem_cons.mp hmem with rfl | hmem2
    · unfold parseTokens
      rw [if_neg hne, hbad]
    · unfold parseTokens
      by_cases ht : pyStrip t = ""
      · rw [if_pos ht]
        exact ih hmem2
      · rw [if_neg ht]
        cases hv : pyFloatParse t with
        | none => rfl
        | some v => rw [ih hmem2]

/-! ## Claim C1 -/

/-- C1, counterexample: with `emotion_vector = "[0.1,0.2,0,0,0,0,0,0]"` (which
parses to a non-empty numeric sequence) and a non-blank
`emotion_text = "joyful"`, the directive handed to the synthesis collaborator
carries the vector but has `use_emo_text = true`, not `false` as the claim
requires for every request with a parsed explicit vector. -/
theorem c1_explicit_vector_with_text_counterexample :
    predict "hello" "speaker.wav" none 1 (some "[0.1,0.2,0,0,0,0,0,0]") (some "joyful") false =
      .ok { spk_audio_prompt := "speaker.wav", text := "hello", emo_audio_prompt := none,
            emo_alpha := 1,
            emo_vector := some [PyFloat.finite (1 / 10), PyFloat.finite (1 / 5),
              PyFloat.finite 0, PyFloat.finite 0, PyFloat.finite 0, PyFloat.finite 0,
              PyFloat.finite 0, PyFloat.finite 0],
            use_emo_text := true, emo_text := some "joyful", use_random := false } := by
  with_unfolding_all decide

/-- C1 as amended: when the raw explicit-vector string parses to a non-empty
sequence, the directive carries that sequence as its vector unchanged, and
its `use_emo_text` flag equals whether `emotion_text` is present and
non-blank — so it is `false` exactly when `emotion_text` is absent or blank,
not unconditionally.  Whether the downstream synthesis engine then calls the
classifier is decided outside this code. -/
theorem c1_amended_directive_passthrough (raw : String) (vs : List PyFloat)
    (h1 : _parse_vector (some raw) = .ok (some vs)) (h2 : vs ≠ [])
    (text spk : String) (ea : Option String) (scale : ℚ) (et : Option String) (rand : Bool) :
    predict text spk ea scale (some raw) et rand =
      .ok { spk_audio_prompt := spk, text := text, emo_audio_prompt := ea, emo_alpha := scale,
            emo_vector := some vs,
            use_emo_text := match et with | none => false | some t => pyStrip t != "",
            emo_text := et, use_random := rand } := by
  unfold predict
  rw [h1]

/-- C1 amended, witness: concrete run with both an explicit vector and a
non-blank emotion text. -/
theorem c1_amended_directive_passthrough_witness :
    predict "hi" "s.wav" none 1 (some "[0.1,0.2,0,0,0,0,0,0]") (some "joyful") true =
      .ok { spk_audio_prompt := "s.wav", text := "hi", emo_audio_prompt := none, emo_alpha := 1,
            emo_vector := some [PyFloat.finite (1 / 10), PyFloat.finite (1 / 5),
              PyFloat.finite 0, PyFloat.finite 0, PyFloat.finite 0, PyFloat.finite 0,
              PyFloat.finite 0, PyFloat.finite 0],
            use_emo_text := true, emo_text := some "joyful", use_random := true } :=
  c1_amended_directive_passthrough "[0.1,0.2,0,0,0,0,0,0]" _ (by with_unfolding_all decide)
    (by decide) "hi" "s.wav" none 1 (some "joyful") true

/-! ## Claim C2 -/

/-- C2, counterexample: a mapping whose only positive score is calm's own
(`自然 = 0.5`) does NOT result in `calm = 1.0`: `convert` tests all eight
clamped values including calm's, finds `0.5 > 0`, and leaves `calm = 0.5`. -/
theorem c2_calm_only_positive_counterexample :
    convert [("自然", (1 : ℚ) / 2)] =
      [("happy", 0), ("angry", 0), ("sad", 0), ("afraid", 0), ("disgusted", 0),
       ("melancholic", 0), ("surprised", 0), ("calm", (1 : ℚ) / 2)] ∧
    ((1 : ℚ) / 2 ≠ 1) := by
  with_unfolding_all decide

/-- C2 as amended: `convert` forces calm to 1.0 exactly when every one of the
eight labels — calm included — has a clamped score at most 0; otherwise calm
keeps its own clamped score.  In particular a mapping whose only positive
score is calm's own keeps that clamped value and is not forced to 1.0. -/
theorem c2_amended_calm_forcing (content : PyDict) :
    (dictGet (convert content) "calm" 0 =
      if desired_vector_order.all (fun cn => decide (clamp_score (dictGet content cn 0) ≤ 0))
      then 1 else clamp_score (dictGet content "自然" 0)) ∧
    (desired_vector_order.all (fun cn => decide (clamp_score (dictGet content cn 0) ≤ 0)) = true →
      convert content =
        [("happy", 0), ("angry", 0), ("sad", 0), ("afraid", 0), ("disgusted", 0),
         ("melancholic", 0), ("surprised", 0), ("calm", 1)]) := by
  constructor
  · unfold convert
    rw [convert_all_condition]
    by_cases hc : desired_vector_order.all (fun cn => decide (clamp_score (dictGet content cn 0) ≤ 0))
    · rw [if_pos hc, if_pos hc]
      exact dictGet_dictSet_self _ _ _ _
    · rw [if_neg hc, if_neg hc]
      simp [emotion_dict_of, desired_vector_order, dictGet, dictLookup, cnToEn, cn_key_to_en]
  · intro hc
    have hz : ∀ cn ∈ desired_vector_order, clamp_score (dictGet content cn 0) = 0 := by
      intro cn hcn
      have h1 := List.all_eq_true.mp hc cn hcn
      exact le_antisymm (of_decide_eq_true h1) (clamp_score_nonneg _)
    simp only [desired_vector_order, List.mem_cons, List.not_mem_nil, or_false] at hz
    unfold convert
    rw [convert_all_condition, if_pos hc]
    have he : emotion_dict_of content =
        [("happy", 0), ("angry", 0), ("sad", 0), ("afraid", 0), ("disgusted", 0),
         ("melancholic", 0), ("surprised", 0), ("calm", 0)] := by
      simp only [emotion_dict_of, desired_vector_order, List.map_cons, List.map_nil]
      simp [cnToEn, cn_key_to_en, dictLookup, hz]
    rw [he]
    with_unfolding_all decide

/-- C2 amended, witness: an all-absent mapping is forced to the neutral
profile. -/
theorem c2_amended_calm_forcing_witness :
    convert [] =
      [("happy", 0), ("angry", 0), ("sad", 0), ("afraid", 0), ("disgusted", 0),
       ("melancholic", 0), ("surprised", 0), ("calm", 1)] :=
  (c2_amended_calm_forcing []).2 (by with_unfolding_all decide)

/-! ## Claim C3 -/

/-- C3, code bug: the tolerant fallback is not exception-free.  On the
decoded content `"悲伤:1.2.3"` the pattern matches with second group
`"1.2.3"` (the class `[\d.]+` admits several dots), and `float("1.2.3")`
raises a `ValueError` that escapes the fallback, contradicting the stated
design that the fallback never fails.  The second conjunct confirms the part
of the claim that does hold: a string with no label:number pattern yields an
empty mapping. -/
theorem c3_fallback_float_valueerror :
    fallback_parse "悲伤:1.2.3" = .error VecErr.valueError ∧
    fallback_parse "no pattern in this sentence" = .ok [] := by
  with_unfolding_all decide

/-! ## Claim C4 -/

/-- C4: if construction of the inner classifier raises, the wrapper is
permanently degraded: initialisation itself returns normally (a total
function here) with `_inner = None`, and every `inference` call returns the
neutral `{"calm": 1.0}` without touching the inner classifier (the degraded
branch inspects nothing but `_inner`). -/
theorem c4_degraded_state_neutral (original_cls : QwenClass) (model_dir : String) (exc : String)
    (h : original_cls.construct model_dir = .error exc) (text_input : String) :
    (SafeQwenEmotion.init original_cls model_dir).inner = none ∧
    (SafeQwenEmotion.init original_cls model_dir).inference text_input = [("calm", 1)] := by
  unfold SafeQwenEmotion.init
  rw [h]
  exact ⟨rfl, rfl⟩

/-- C4, witness: a wrapper over the always-failing class. -/
theorem c4_degraded_state_neutral_witness :
    (SafeQwenEmotion.init failingClass "checkpoints").inner = none ∧
    (SafeQwenEmotion.init failingClass "checkpoints").inference "I am happy" = [("calm", 1)] :=
  c4_degraded_state_neutral failingClass "checkpoints" "load failure" rfl "I am happy"

/-! ## Claim C5 -/

/-- C5: a wrapper in the Ready state converts an inner-classifier exception
on one call into the neutral vector without re-raising, and the failure
leaves the wrapper unchanged: the same wrapper value still delegates a later
call to the inner classifier and returns its successful result. -/
theorem c5_ready_failure_isolated (cls : QwenClass) (model_dir : String) (inst : QwenInstance)
    (t1 t2 exc : String) (d : PyDict)
    (h0 : cls.construct model_dir = .ok inst)
    (h1 : inst.inference t1 = .error exc) (h2 : inst.inference t2 = .ok d) :
    (SafeQwenEmotion.init cls model_dir).inference t1 = [("calm", 1)] ∧
    (SafeQwenEmotion.init cls model_dir).inference t2 = d := by
  unfold SafeQwenEmotion.init
  rw [h0]
  unfold SafeQwenEmotion.inference
  simp only []
  rw [h1, h2]
  exact ⟨rfl, rfl⟩

/-- C5, witness: the flaky instance fails on "boom" and succeeds on "fine";
the wrapper returns neutral for the first and the real result for the
second. -/
theorem c5_ready_failure_isolated_witness :
    (SafeQwenEmotion.init healthyClass "checkpoints").inference "boom" = [("calm", 1)] ∧
    (SafeQwenEmotion.init healthyClass "checkpoints").inference "fine" = [("高兴", 1)] :=
  c5_ready_failure_isolated healthyClass "checkpoints" flakyInstance "boom" "fine"
    "inference failure" [("高兴", 1)] rfl (by with_unfolding_all decide)
    (by with_unfolding_all decide)

/-! ## Claim C6 -/

/-- C6, counterexample: `"[null]"` is non-blank, starts with `[`, and fails
to be a numeric array, yet the failure is a `TypeError` from the unguarded
`float(val)` conversion at line 172 — not the `InvalidVectorFormat`
`ValueError` of line 169 — so "raises InvalidVectorFormat (and no other kind
of error)" is false for the structured branch. -/
theorem c6_json_null_counterexample :
    _parse_vector (some "[null]") = .error VecErr.typeError ∧
    VecErr.typeError ≠ VecErr.invalidVectorFormat := by
  with_unfolding_all decide

/-- C6 as amended, for non-blank input: if the input starts with `[` and
`json.loads` itself fails, `InvalidVectorFormat` is raised; if `json.loads`
succeeds but an element is not convertible to float, that element's own
`TypeError` / plain `ValueError` escapes instead (the conversion sits outside
the guarded region); in the comma branch any non-blank unparseable token
raises `InvalidVectorFormat`; and any `_parse_vector` exception propagates
unswallowed through `predict` to the request boundary. -/
theorem c6_amended_error_propagation (s : String) :
    (pyStrip s ≠ "" → startsWithLBracket (pyStrip s) = true →
      jsonLoads (pyStrip s) = none →
      _parse_vector (some s) = .error VecErr.invalidVectorFormat) ∧
    (pyStrip s ≠ "" → startsWithLBracket (pyStrip s) = false →
      (∃ tok, tok ∈ (pyStrip s).splitOn "," ∧ pyStrip tok ≠ "" ∧ pyFloatParse tok = none) →
      _parse_vector (some s) = .error VecErr.invalidVectorFormat) ∧
    (∀ values e, pyStrip s ≠ "" → startsWithLBracket (pyStrip s) = true →
      jsonLoads (pyStrip s) = some (JsonValue.arr values) →
      mapFloatJson values = .error e →
      _parse_vector (some s) = .error e) ∧
    (∀ e text spk ea scale et rand, _parse_vector (some s) = .error e →
      predict text spk ea scale (some s) et rand = .error e) := by
  refine ⟨?_, ?_, ?_, ?_⟩
  · intro h1 h2 h3
    have hs : ¬ s = "" := fun hh => h1 (by rw [hh]; rfl)
    simp only [_parse_vector]
    rw [if_neg hs, if_neg h1, if_pos h2, h3]
  · intro h1 h2 h3
    obtain ⟨tok, hmem, hne, hbad⟩ := h3
    have hs : ¬ s = "" := fun hh => h1 (by rw [hh]; rfl)
    have h2n : ¬ startsWithLBracket (pyStrip s) = true := by simp [h2]
    simp only [_parse_vector]
    rw [if_neg hs, if_neg h1, if_neg h2n, parseTokens_error _ tok hmem hne hbad]
  · intro values e h1 h2 hjson herr
    have hs : ¬ s = "" := fun hh => h1 (by rw [hh]; rfl)
    simp only [_parse_vector]
    rw [if_neg hs, if_neg h1, if_pos h2, hjson]
    cases values with
    | nil => cases herr
    | cons v rest =>
      simp only [List.isEmpty_cons]
      rw [herr]
      rfl
  · intro e text spk ea scale et rand h
    unfold predict
    rw [h]

/-- C6 amended, witness: an unterminated array, a non-numeric comma token,
the `[null]` element failure, and propagation of the comma-branch error
through `predict`. -/
theorem c6_amended_error_propagation_witness :
    _parse_vector (some "[1,2") = .error VecErr.invalidVectorFormat ∧
    _parse_vector (some "not,numbers") = .error VecErr.invalidVectorFormat ∧
    _parse_vector (some "[null]") = .error VecErr.typeError ∧
    predict "t" "s.wav" none 1 (some "not,numbers") none false =
      .error VecErr.invalidVectorFormat :=
  ⟨(c6_amended_error_propagation "[1,2").1 (by decide) (by rfl) (by rfl),
   (c6_amended_error_propagation "not,numbers").2.1 (by decide) (by rfl)
     ⟨"not", by with_unfolding_all decide, by decide, by rfl⟩,
   (c6_amended_error_propagation "[null]").2.2.1 [JsonValue.null] VecErr.typeError (by decide)
     (by rfl) (by rfl) (by rfl),
   (c6_amended_error_propagation "not,numbers").2.2.2 VecErr.invalidVectorFormat "t" "s.wav"
     none 1 none false
     ((c6_amended_error_propagation "not,numbers").2.1 (by decide) (by rfl)
       ⟨"not", by with_unfolding_all decide, by decide, by rfl⟩)⟩

/-! ## Claim C7 -/

/-- C7: when the input text contains a melancholic trigger word
(case-insensitively), the raw scores of 悲伤 (sad) and 低落 (melancholic) are
swapped before conversion — `sad = 0.9, melancholic = 0.2` converts to
`melancholic = 0.9, sad = 0.2` — and when no trigger word is present the raw
mapping is passed to `convert` unchanged. -/
theorem c7_melancholy_swap_conversion (text_input : String) (parsed : PyDict) :
    (contains_melancholic_word text_input = true →
      inference_postprocess text_input [("悲伤", 9 / 10), ("低落", 1 / 5)] =
        [("happy", 0), ("angry", 0), ("sad", 1 / 5), ("afraid", 0), ("disgusted", 0),
         ("melancholic", 9 / 10), ("surprised", 0), ("calm", 0)]) ∧
    (contains_melancholic_word text_input = false →
      inference_postprocess text_input parsed = convert parsed) := by
  constructor
  · intro h
    unfold inference_postprocess apply_melancholy_rule
    rw [h]
    with_unfolding_all decide
  · intro h
    unfold inference_postprocess apply_melancholy_rule
    rw [h]
    simp

/-- C7, witness: a triggering text applies the swap; a plain text does not. -/
theorem c7_melancholy_swap_conversion_witness :
    inference_postprocess "I feel melancholy" [("悲伤", 9 / 10), ("低落", 1 / 5)] =
      [("happy", 0), ("angry", 0), ("sad", 1 / 5), ("afraid", 0), ("disgusted", 0),
       ("melancholic", 9 / 10), ("surprised", 0), ("calm", 0)] ∧
    inference_postprocess "a plain sentence" [("高兴", 1)] = convert [("高兴", 1)] :=
  ⟨(c7_melancholy_swap_conversion "I feel melancholy" []).1 (by decide),
   (c7_melancholy_swap_conversion "a plain sentence" [("高兴", 1)]).2 (by decide)⟩

/-! ## Claim C8 -/

/-- C8: applying the fallback-wrapping step twice is literally the identity on
the result of applying it once — the `_is_safe_wrapper` marker makes the
second application return its input unchanged, so no second fallback layer is
installed and the doubly-wrapped class is (trivially) behaviourally identical
to the singly-wrapped one. -/
theorem c8_wrap_idempotent (qwen : Option QwenClass) :
    _wrap_qwen_with_fallback (_wrap_qwen_with_fallback qwen) = _wrap_qwen_with_fallback qwen := by
  match qwen with
  | none => rfl
  | some cls =>
    by_cases h : cls.is_safe_wrapper
    · simp [_wrap_qwen_with_fallback, h]
    · simp [_wrap_qwen_with_fallback, h, safe_class_of]

/-! ## Claim C9 -/

/-- C9: for every RawClassification mapping, the converted vector has exactly
the 8 canonical labels in canonical order, every value lies in [0, 1.2], and
a label absent from the raw mapping is read as 0.0 (adding it explicitly with
score 0 leaves the result unchanged). -/
theorem c9_convert_invariants (content : PyDict) :
    ((convert content).map Prod.fst =
      ["happy", "angry", "sad", "afraid", "disgusted", "melancholic", "surprised", "calm"]) ∧
    (∀ p ∈ convert content, 0 ≤ p.2 ∧ p.2 ≤ 6 / 5) ∧
    (∀ cn, dictLookup content cn = none → convert (dictSet content cn 0) = convert content) := by
  refine ⟨?_, ?_, ?_⟩
  · unfold convert
    split
    · rfl
    · rfl
  · intro p hp
    unfold convert at hp
    split at hp
    · simp [emotion_dict_of, desired_vector_order, dictSet, cnToEn, cn_key_to_en,
        dictLookup] at hp
      rcases hp with rfl | rfl | rfl | rfl | rfl | rfl | rfl | rfl
      all_goals first
        | exact ⟨clamp_score_nonneg _, clamp_score_le _⟩
        | norm_num
    · simp only [emotion_dict_of, List.mem_map] at hp
      obtain ⟨cn, _, rfl⟩ := hp
      exact ⟨clamp_score_nonneg _, clamp_score_le _⟩
  · intro cn h
    apply convert_congr
    intro k
    by_cases hk : k = cn
    · subst hk
      rw [dictGet_dictSet_self]
      simp [dictGet, h]
    · rw [dictGet_dictSet_ne _ hk]

/-- C9, witness: labels and order for a concrete mapping, and insensitivity
to adding a missing label with score 0. -/
theorem c9_convert_invariants_witness :
    ((convert [("高兴", (2 : ℚ))]).map Prod.fst =
      ["happy", "angry", "sad", "afraid", "disgusted", "melancholic", "surprised", "calm"]) ∧
    convert (dictSet [("高兴", (2 : ℚ))] "自然" 0) = convert [("高兴", (2 : ℚ))] :=
  ⟨(c9_convert_invariants [("高兴", (2 : ℚ))]).1,
   (c9_convert_invariants [("高兴", (2 : ℚ))]).2.2 "自然" (by decide)⟩

/-! ## Claim C10 -/

/-- C10: when a melancholic trigger word is present, the swap is total over
missing keys: afterwards 悲伤 holds the previous 低落 score and 低落 holds
the previous 悲伤 score, each defaulting to 0.0 when the other key was
absent, and both keys are present; in particular a mapping containing only
悲伤 ends with `悲伤 = 0.0` and `低落` equal to the old 悲伤 score. -/
theorem c10_swap_totalizes_missing_keys (text_input : String) (parsed : PyDict)
    (h : contains_melancholic_word text_input = true) :
    dictLookup (apply_melancholy_rule text_input parsed) "悲伤" =
      some (dictGet parsed "低落" 0) ∧
    dictLookup (apply_melancholy_rule text_input parsed) "低落" =
      some (dictGet parsed "悲伤" 0) ∧
    (∀ v : ℚ, apply_melancholy_rule text_input [("悲伤", v)] = [("悲伤", 0), ("低落", v)]) := by
  unfold apply_melancholy_rule
  rw [h, if_pos rfl]
  unfold melancholy_swap
  refine ⟨?_, ?_, ?_⟩
  · rw [dictLookup_dictSet_ne _ (by decide), dictLookup_dictSet_self]
  · rw [dictLookup_dictSet_self]
  · intro v
    simp [dictSet, dictGet, dictLookup]

/-- C10, witness: a sad-only mapping under a triggering text. -/
theorem c10_swap_totalizes_missing_keys_witness :
    dictLookup (apply_melancholy_rule "so gloomy outside" [("悲伤", (3 : ℚ) / 10)]) "悲伤" =
      some 0 ∧
    dictLookup (apply_melancholy_rule "so gloomy outside" [("悲伤", (3 : ℚ) / 10)]) "低落" =
      some ((3 : ℚ) / 10) ∧
    apply_melancholy_rule "so gloomy outside" [("悲伤", (3 : ℚ) / 10)] =
      [("悲伤", 0), ("低落", (3 : ℚ) / 10)] :=
  ⟨(c10_swap_totalizes_missing_keys "so gloomy outside" [("悲伤", (3 : ℚ) / 10)] (by decide)).1,
   (c10_swap_totalizes_missing_keys "so gloomy outside" [("悲伤", (3 : ℚ) / 10)] (by decide)).2.1,
   (c10_swap_totalizes_missing_keys "so gloomy outside" [("悲伤", (3 : ℚ) / 10)]
     (by decide)).2.2 ((3 : ℚ) / 10)⟩
